import Mathlib

/-!
# Verification of the admin-frontend booking workflow

A shallow embedding of the booking-directory, assignment-resolver and
filter-engine logic of the admin frontend, together with proofs of the
spec's testable properties.

Conventions of the embedding:
* TypeScript strings that may be `null`/`undefined`/`''` are modelled as
  `String`, with `""` playing the role of every falsy value; the
  JavaScript `a || b` idiom on strings is `jsOr a b`.
* Optional nested objects (`x?.field`) are modelled with `Option`; the
  `x?.field || y` idiom is `jsOr (optStr x f) y`.
* Data-store queries are passed in as explicit functions
  (`String → Option _`) or as `Except` values for whole-table queries,
  so that every behaviour of the store can be quantified over.
-/

/-- JavaScript `a || b` on strings: `""` is falsy. -/
def jsOr (a b : String) : String := if a = "" then b else a

/-- JavaScript `x?.f` for an optional record, yielding `""` when absent. -/
def optStr {α : Type} (x : Option α) (f : α → String) : String :=
  match x with
  | some v => f v
  | none => ""

/-- JavaScript `parseInt` as used on the filter inputs: parse the leading
decimal digits, `none` standing for `NaN` (any comparison with `NaN` is
false). -/
def parseIntJS (s : String) : Option Nat :=
  let digits := s.data.takeWhile Char.isDigit
  if digits = [] then none
  else some (digits.foldl (fun n c => 10 * n + (c.toNat - '0'.toNat)) 0)

/-- JavaScript `String.prototype.includes`: substring test. -/
def jsIncludes (s sub : String) : Bool :=
  if sub = "" then true else (s.splitOn sub).length > 1

/-- JavaScript `s.includes(c)` for a single character. -/
def jsIncludesChar (s : String) (c : Char) : Bool := s.data.contains c

/-- JavaScript `s.split(c)` for a single-character separator. -/
def jsSplitChar (s : String) (c : Char) : List String :=
  (s.data.splitOn c).map fun l => String.mk l

/-! ## Booking Directory (src/src/lib/api.ts, `ApiService.getAllBookings`)

Raw rows as returned by the store queries, carrying exactly the fields the
expansion code reads.  Fields that the database may return as
`null`/`undefined` are `""` (strings) or `[]`/`none`. -/

/-- A `booked_properties` row nested under a booking date. -/
structure BookedProp where
  property_id : String
  property_name : String
  property_type : String
  property_address : String
deriving Repr, DecidableEq

/-- A `booking_dates` row nested under a booking request. -/
structure RawDate where
  id : String
  start_date : String
  end_date : String
  status : String
  created_at : String
  booked_properties : List BookedProp
deriving Repr, DecidableEq

/-- A nested `contractor` row on a booking request. -/
structure ContractorRec where
  id : String
  full_name : String
  email : String
  code : String
deriving Repr, DecidableEq

/-- A raw booking row from either schema (`booking_requests` with nested
dates, or the legacy flat `bookings` table, for which `booking_dates = []`
and `contractor = none`). -/
structure RawBooking where
  id : String
  status : String
  booking_dates : List RawDate
  assigned_property_id : String
  contractor : Option ContractorRec
  user_id : String
  contractor_id : String
  full_name : String
  email : String
deriving Repr, DecidableEq

/-- The `assigned_property` projection attached to an expanded booking.
The legacy-fallback object carries no `property_type` key, hence the
`Option`. -/
structure AssignedProperty where
  id : String
  property_name : String
  full_address : String
  property_type : Option String
  weekly_rate : Nat
  monthly_rate : Nat
deriving Repr, DecidableEq

/-- The contractor object attached to an expanded booking (never null). -/
structure ContractorOut where
  id : String
  full_name : String
  email : String
  code : Option String
deriving Repr, DecidableEq

/-- One expanded booking entry.  `base` holds the raw row the object-spread
`{...booking}` copied from; the remaining fields are the keys the spread
overrides. -/
structure Booking where
  base : RawBooking
  id : String
  status : String
  booking_dates : List RawDate
  assigned_property : Option AssignedProperty
  contractor : ContractorOut
deriving Repr, DecidableEq

/-- The contractor fallback chain
`booking.contractor?.id || booking.user_id || booking.contractor_id || 'unknown'`
etc., identical in both branches of the expansion. -/
def mkContractorOut (booking : RawBooking) : ContractorOut :=
  { id := jsOr (optStr booking.contractor (·.id))
      (jsOr booking.user_id (jsOr booking.contractor_id "unknown"))
    full_name := jsOr (optStr booking.contractor (·.full_name))
      (jsOr booking.full_name "Unknown Contractor")
    email := jsOr (optStr booking.contractor (·.email))
      (jsOr booking.email "contractor@example.com")
    code := let c := optStr booking.contractor (·.code)
      if c = "" then none else some c }

/-- The legacy placeholder built from `assigned_property_id`. -/
def legacyAssignedProperty (booking : RawBooking) : Option AssignedProperty :=
  if booking.assigned_property_id = "" then none
  else some
    { id := booking.assigned_property_id
      property_name := "Property"
      full_address := "Address"
      property_type := none
      weekly_rate := 0
      monthly_rate := 0 }

/-- The per-record expansion loop of `getAllBookings`: a record with
nested dates yields one entry per date; a record without dates yields a
single entry. -/
def expandBookings (bookingRequests : List RawBooking) : List Booking :=
  bookingRequests.flatMap fun booking =>
    if booking.booking_dates.length > 0 then
      booking.booking_dates.map fun dateRange =>
        let displayStatus0 := jsOr booking.status "pending"
        let displayStatus :=
          if dateRange.status = "confirmed" then "active"
          else if dateRange.status ≠ "" then dateRange.status
          else displayStatus0
        let assignedProperty : Option AssignedProperty :=
          match dateRange.booked_properties with
          | bookedProperty :: _ => some
              { id := bookedProperty.property_id
                property_name := jsOr bookedProperty.property_name "Assigned Property"
                full_address := jsOr bookedProperty.property_address "Address"
                property_type := some (jsOr bookedProperty.property_type "Property Type")
                weekly_rate := 0
                monthly_rate := 0 }
          | [] => legacyAssignedProperty booking
        { base := booking
          id := booking.id ++ "-" ++ dateRange.id
          status := displayStatus
          booking_dates := [dateRange]
          assigned_property := assignedProperty
          contractor := mkContractorOut booking }
    else
      [{ base := booking
         id := booking.id
         status := jsOr booking.status "pending"
         booking_dates := []
         assigned_property := legacyAssignedProperty booking
         contractor := mkContractorOut booking }]

/-- `ApiService.getAllBookings`: try the `booking_requests` query, fall
back to the `bookings` query, expand the rows; the outer catch turns any
remaining failure into `[]`. -/
def getAllBookings (qRequests qBookings : Except String (List RawBooking)) :
    List Booking :=
  match (match qRequests with
         | Except.ok data => Except.ok data
         | Except.error _ => qBookings) with
  | Except.ok bookingRequests => expandBookings bookingRequests
  | Except.error _ => []

/-! ## Assignment Resolver (src/unnamed/part_001, `PropertyAssignmentModal`) -/

/-- A nested booking-date element on the candidate passed to the modal. -/
structure CandDate where
  id : String
  start_date : String
  end_date : String
  status : String
deriving Repr, DecidableEq

/-- The booking-like candidate (`bookingToAssign`) handed to the modal:
only the fields the id-resolution code reads. -/
structure Candidate where
  id : String
  booking_request_id : String
  booking_dates : List CandDate
deriving Repr, DecidableEq

/-- The booking-date id resolution of `fetchFormData` (existing-booking
branch): (1) the first nested date's id; (2) else a `booking_dates` store
query keyed by `booking_request_id`; (3) else split the composite id on
`'-'` and take the second segment; else `""`.  `dateStore` models the
`booking_dates` select-by-request-id query (`none` = error / no row). -/
def resolveBookingDateId (bookingToAssign : Candidate)
    (dateStore : String → Option String) : String :=
  let fromDates :=
    match bookingToAssign.booking_dates with
    | d :: _ => d.id
    | [] => ""
  let fromStore :=
    if fromDates = "" ∧ bookingToAssign.booking_request_id ≠ "" then
      match dateStore bookingToAssign.booking_request_id with
      | some did => did
      | none => ""
    else fromDates
  if fromStore = "" ∧ jsIncludesChar bookingToAssign.id '-' then
    (jsSplitChar bookingToAssign.id '-').getD 1 ""
  else fromStore

/-- The landlord `owner` object nested on a selected property. -/
structure Owner where
  full_name : String
  contact_number : String
  email : String
deriving Repr, DecidableEq

/-- A `landlord` table row. -/
structure Landlord where
  full_name : String
  contact_number : String
  email : String
deriving Repr, DecidableEq

/-- The `selectedProperty` prop: the fields the modal reads. -/
structure SelectedProperty where
  id : String
  property_name : String
  title : String
  property_type : String
  full_address : String
  address : String
  landlord_id : String
  house_address : String
  locality : String
  city : String
  county : String
  postcode : String
  country : String
  owner : Option Owner
deriving Repr, DecidableEq

/-- The editable assignment form (`FormData` / `EditableFormData`). -/
structure FormData where
  booking_date_id : String
  start_date : String
  end_date : String
  postcode : String
  contractor_name : String
  contractor_email : String
  contractor_phone : String
  team_size : Nat
  property_name : String
  property_type : String
  property_address : String
  landlord_name : String
  landlord_contact : String
deriving Repr, DecidableEq

/-- The property-address fallback chain used throughout the modal:
`full_address || address || [house,locality,city,county,postcode,country].filter(Boolean).join(', ') || ''`. -/
def propertyAddressOf (sp : SelectedProperty) : String :=
  jsOr sp.full_address (jsOr sp.address
    (String.intercalate ", "
      (([sp.house_address, sp.locality, sp.city, sp.county, sp.postcode,
         sp.country]).filter (· ≠ ""))))

/-- The landlord lookup guard: query the `landlord` table only when the
property carries a `landlord_id` (`none` = query error / no row). -/
def lookupLandlord (sp : SelectedProperty)
    (landlordStore : String → Option Landlord) : Option Landlord :=
  if sp.landlord_id = "" then none else landlordStore sp.landlord_id

/-- The landlord-name chain `landlord?.full_name || owner?.full_name || 'Unknown'`. -/
def landlordNameOf (landlord : Option Landlord) (sp : SelectedProperty) : String :=
  jsOr (optStr landlord (·.full_name))
    (jsOr (optStr sp.owner (·.full_name)) "Unknown")

/-- The landlord-contact chain
`landlord?.contact_number || landlord?.email || owner?.contact_number || owner?.email || 'Unknown'`. -/
def landlordContactOf (landlord : Option Landlord) (sp : SelectedProperty) : String :=
  jsOr (optStr landlord (·.contact_number))
    (jsOr (optStr landlord (·.email))
      (jsOr (optStr sp.owner (·.contact_number))
        (jsOr (optStr sp.owner (·.email)) "Unknown")))

/-- The `isNewBooking = true` branch of `fetchFormData`: no booking-record
lookups, only the landlord lookup; every contractor/date/team-size field —
and the postcode — starts empty. -/
def fetchFormDataNewBooking (selectedProperty : SelectedProperty)
    (landlordStore : String → Option Landlord) : FormData :=
  let landlord := lookupLandlord selectedProperty landlordStore
  { booking_date_id := ""
    start_date := ""
    end_date := ""
    postcode := ""
    contractor_name := ""
    contractor_email := ""
    contractor_phone := ""
    team_size := 0
    property_name := jsOr selectedProperty.property_name selectedProperty.title
    property_type := selectedProperty.property_type
    property_address := propertyAddressOf selectedProperty
    landlord_name := landlordNameOf landlord selectedProperty
    landlord_contact := landlordContactOf landlord selectedProperty }

/-- A `booking_dates` row as selected by `fetchBookingDataById`. -/
structure DateRec where
  booking_request_id : String
  start_date : String
  end_date : String
deriving Repr, DecidableEq

/-- A `booking_requests` row as selected by `fetchBookingDataById`. -/
structure ReqRec where
  team_size : Nat
  full_name : String
  email : String
  phone : String
  project_postcode : String
deriving Repr, DecidableEq

/-- `fetchBookingDataById` (new-booking mode): resolve the date row, then
the parent request row, then rebuild the live form.  The two failure
messages are distinct; on success every field of the previous form is
overwritten (the previous postcode surviving only as a fallback). -/
def fetchBookingDataById (bookingDateId : String) (prev : FormData)
    (selectedProperty : SelectedProperty)
    (dateStore : String → Option DateRec)
    (requestStore : String → Option ReqRec)
    (landlordStore : String → Option Landlord) : Except String FormData :=
  match dateStore bookingDateId with
  | none => Except.error "Booking ID not found. Please check and try again."
  | some bookingDateData =>
    match requestStore bookingDateData.booking_request_id with
    | none => Except.error "Booking request data not found for this ID."
    | some bookingRequestData =>
      let landlord := lookupLandlord selectedProperty landlordStore
      Except.ok
        { booking_date_id := bookingDateId
          start_date := bookingDateData.start_date
          end_date := bookingDateData.end_date
          postcode := jsOr bookingRequestData.project_postcode prev.postcode
          contractor_name := jsOr bookingRequestData.full_name ""
          contractor_email := jsOr bookingRequestData.email ""
          contractor_phone := jsOr bookingRequestData.phone ""
          team_size := bookingRequestData.team_size
          property_name := jsOr selectedProperty.property_name selectedProperty.title
          property_type := selectedProperty.property_type
          property_address := propertyAddressOf selectedProperty
          landlord_name := landlordNameOf landlord selectedProperty
          landlord_contact := landlordContactOf landlord selectedProperty }

/-- The JSON body `handleSubmit` posts to `/api/property-assignment`. -/
structure SubmitPayload where
  booking_date_id : String
  property_id : String
  start_date : String
  end_date : String
  postcode : String
  contractor_name : String
  contractor_email : String
  contractor_phone : String
  team_size : Nat
  property_name : String
  property_type : String
  property_address : String
  landlord_name : String
  landlord_contact : String
deriving Repr, DecidableEq

/-- The client-side validation phase of `handleSubmit`: `Except.error msg`
is a local rejection (`setErrorMessage`, no fetch issued); `Except.ok p`
means the network call goes out with body `p`. -/
def handleSubmitValidate (editableFormData : FormData)
    (selectedProperty : Option SelectedProperty) : Except String SubmitPayload :=
  if editableFormData.booking_date_id = "" then
    Except.error "Booking ID is required"
  else
    match selectedProperty with
    | none => Except.error "Property selection is required"
    | some sp =>
      if sp.id = "" then Except.error "Property selection is required"
      else if editableFormData.start_date = "" ∨ editableFormData.end_date = "" then
        Except.error "Start date and end date are required"
      else
        Except.ok
          { booking_date_id := editableFormData.booking_date_id
            property_id := sp.id
            start_date := editableFormData.start_date
            end_date := editableFormData.end_date
            postcode := editableFormData.postcode
            contractor_name := editableFormData.contractor_name
            contractor_email := editableFormData.contractor_email
            contractor_phone := editableFormData.contractor_phone
            team_size := editableFormData.team_size
            property_name := editableFormData.property_name
            property_type := editableFormData.property_type
            property_address := editableFormData.property_address
            landlord_name := editableFormData.landlord_name
            landlord_contact := editableFormData.landlord_contact }

/-! ## Filter Engine (src/unnamed/part_004, `filteredProperties`, and
`formatFullAddress` from src/src/lib/api.ts) -/

/-- A property row as read by the dashboard filter (the fields of
`PropertyWithOwner` that `filteredProperties` and `formatFullAddress`
touch). -/
structure PropertyRec where
  id : String
  property_name : String
  property_type : String
  full_address : String
  house_address : String
  locality : String
  city : String
  county : String
  postcode : String
  country : String
  parking_type : String
  bedrooms : Nat
  beds : Nat
  bathrooms : Nat
  max_occupancy : Nat
  workspace_desk : Bool
  high_speed_wifi : Bool
  fully_equipped_kitchen : Bool
  living_dining_space : Bool
  fire_extinguisher_blanket : Bool
  gas_safety_certificate : Bool
  epc : Bool
  eicr : Bool
deriving Repr, DecidableEq

/-- `formatFullAddress`: join the non-empty structured address parts with
", ", falling back to the flattened `full_address` when all are empty. -/
def formatFullAddress (property : PropertyRec) : String :=
  let addressParts :=
    ([property.house_address, property.locality, property.city,
      property.county, property.postcode, property.country]).filter (· ≠ "")
  if addressParts.length > 0 then String.intercalate ", " addressParts
  else jsOr property.full_address ""

/-- The keys of the property filter (`selectedFilters` set membership). -/
inductive FilterKey where
  | search | postcode | city | property_type | parking_type
  | bedrooms | beds | bathrooms | max_occupancy
  | workspace_desk | high_speed_wifi | fully_equipped_kitchen
  | living_dining_space | fire_extinguisher_blanket
  | gas_safety_certificate | epc | eicr
deriving Repr, DecidableEq

/-- The `filterValues` record: text/numeric inputs are strings, checkbox
filters are booleans. -/
structure FilterValues where
  search : String
  postcode : String
  city : String
  property_type : String
  parking_type : String
  bedrooms : String
  beds : String
  bathrooms : String
  max_occupancy : String
  workspace_desk : Bool
  high_speed_wifi : Bool
  fully_equipped_kitchen : Bool
  living_dining_space : Bool
  fire_extinguisher_blanket : Bool
  gas_safety_certificate : Bool
  epc : Bool
  eicr : Bool
deriving Repr, DecidableEq

/-- `property.field >= parseInt(v)`: false when the parse is `NaN`. -/
def geParsed (field : Nat) (v : String) : Bool :=
  match parseIntJS v with
  | some n => field ≥ n
  | none => false

/-- `property.field === parseInt(v)`: false when the parse is `NaN`. -/
def eqParsed (field : Nat) (v : String) : Bool :=
  match parseIntJS v with
  | some n => field = n
  | none => false

/-- The memoized `filteredProperties` computation: each guard requires the
key to be in `selectedFilters` *and* its stored value to be truthy, and the
guarded steps narrow the list in sequence. -/
def filteredProperties (selectedFilters : FilterKey → Bool)
    (filterValues : FilterValues) (properties : List PropertyRec) :
    List PropertyRec :=
  let f0 := properties
  let f1 :=
    if selectedFilters .search && filterValues.search ≠ "" then
      let searchTerm := filterValues.search.toLower
      f0.filter fun property =>
        jsIncludes property.property_name.toLower searchTerm ||
        jsIncludes (formatFullAddress property).toLower searchTerm ||
        jsIncludes property.property_type.toLower searchTerm
    else f0
  let f2 :=
    if selectedFilters .postcode && filterValues.postcode ≠ "" then
      let postcodeTerm := filterValues.postcode.toLower
      f1.filter fun property => jsIncludes property.postcode.toLower postcodeTerm
    else f1
  let f3 :=
    if selectedFilters .city && filterValues.city ≠ "" then
      f2.filter fun property => property.city = filterValues.city
    else f2
  let f4 :=
    if selectedFilters .property_type && filterValues.property_type ≠ "" then
      f3.filter fun property => property.property_type = filterValues.property_type
    else f3
  let f5 :=
    if selectedFilters .parking_type && filterValues.parking_type ≠ "" then
      f4.filter fun property => property.parking_type = filterValues.parking_type
    else f4
  let f6 :=
    if selectedFilters .bedrooms && filterValues.bedrooms ≠ "" then
      f5.filter fun property => geParsed property.bedrooms filterValues.bedrooms
    else f5
  let f7 :=
    if selectedFilters .beds && filterValues.beds ≠ "" then
      f6.filter fun property => geParsed property.beds filterValues.beds
    else f6
  let f8 :=
    if selectedFilters .bathrooms && filterValues.bathrooms ≠ "" then
      f7.filter fun property => geParsed property.bathrooms filterValues.bathrooms
    else f7
  let f9 :=
    if selectedFilters .max_occupancy && filterValues.max_occupancy ≠ "" then
      f8.filter fun property => eqParsed property.max_occupancy filterValues.max_occupancy
    else f8
  let f10 :=
    if selectedFilters .workspace_desk && filterValues.workspace_desk then
      f9.filter fun property => property.workspace_desk = true
    else f9
  let f11 :=
    if selectedFilters .high_speed_wifi && filterValues.high_speed_wifi then
      f10.filter fun property => property.high_speed_wifi = true
    else f10
  let f12 :=
    if selectedFilters .fully_equipped_kitchen && filterValues.fully_equipped_kitchen then
      f11.filter fun property => property.fully_equipped_kitchen = true
    else f11
  let f13 :=
    if selectedFilters .living_dining_space && filterValues.living_dining_space then
      f12.filter fun property => property.living_dining_space = true
    else f12
  let f14 :=
    if selectedFilters .fire_extinguisher_blanket && filterValues.fire_extinguisher_blanket then
      f13.filter fun property => property.fire_extinguisher_blanket = true
    else f13
  let f15 :=
    if selectedFilters .gas_safety_certificate && filterValues.gas_safety_certificate then
      f14.filter fun property => property.gas_safety_certificate = true
    else f14
  let f16 :=
    if selectedFilters .epc && filterValues.epc then
      f15.filter fun property => property.epc = true
    else f15
  let f17 :=
    if selectedFilters .eicr && filterValues.eicr then
      f16.filter fun property => property.eicr = true
    else f16
  f17

/-! ## Theorems -/

/-- C9: with an empty active-predicate set the filter returns the original
collection exactly, whatever values the inactive predicates store. -/
theorem filteredProperties_identity (filterValues : FilterValues)
    (properties : List PropertyRec) :
    filteredProperties (fun _ => false) filterValues properties = properties := by
  simp [filteredProperties]

/-- C8: with only the bedrooms predicate active at minimum "3", the result
contains exactly the properties with at least 3 bedrooms: every kept item
has `bedrooms ≥ 3` and every excluded item has `bedrooms < 3`. -/
theorem filteredProperties_bedrooms_sound_complete (filterValues : FilterValues)
    (properties : List PropertyRec) (hv : filterValues.bedrooms = "3") :
    (∀ p ∈ filteredProperties
        (fun k => match k with | FilterKey.bedrooms => true | _ => false)
        filterValues properties, 3 ≤ p.bedrooms) ∧
    (∀ p ∈ properties,
      p ∉ filteredProperties
        (fun k => match k with | FilterKey.bedrooms => true | _ => false)
        filterValues properties → p.bedrooms < 3) := by
  have hres : filteredProperties
      (fun k => match k with | FilterKey.bedrooms => true | _ => false)
      filterValues properties
      = properties.filter fun p => geParsed p.bedrooms "3" := by
    simp [filteredProperties, hv]
  constructor
  · intro p hp
    rw [hres, List.mem_filter] at hp
    have hp3 : parseIntJS "3" = some 3 := by decide
    have h3 : geParsed p.bedrooms "3" = decide (3 ≤ p.bedrooms) := by
      simp [geParsed, hp3]
    have := hp.2
    rw [h3] at this
    exact of_decide_eq_true this
  · intro p hp hnot
    rw [hres, List.mem_filter] at hnot
    by_contra hge
    push_neg at hge
    apply hnot
    refine ⟨hp, ?_⟩
    have hp3 : parseIntJS "3" = some 3 := by decide
    have h3 : geParsed p.bedrooms "3" = decide (3 ≤ p.bedrooms) := by
      simp [geParsed, hp3]
    rw [h3]
    exact decide_eq_true hge

/-- A two-bedroom property used to exercise the filter theorems. -/
def propTwoBeds : PropertyRec :=
  { id := "P2", property_name := "Snug Flat", property_type := "flat"
    full_address := "2 Low St", house_address := "", locality := "", city := "Leeds"
    county := "", postcode := "LS1", country := "", parking_type := ""
    bedrooms := 2, beds := 2, bathrooms := 1, max_occupancy := 3
    workspace_desk := false, high_speed_wifi := true, fully_equipped_kitchen := true
    living_dining_space := false, fire_extinguisher_blanket := false
    gas_safety_certificate := true, epc := true, eicr := false }

/-- A four-bedroom property used to exercise the filter theorems. -/
def propFourBeds : PropertyRec :=
  { id := "P4", property_name := "Big House", property_type := "house"
    full_address := "4 High St", house_address := "", locality := "", city := "York"
    county := "", postcode := "YO1", country := "", parking_type := "driveway"
    bedrooms := 4, beds := 5, bathrooms := 2, max_occupancy := 8
    workspace_desk := true, high_speed_wifi := true, fully_equipped_kitchen := true
    living_dining_space := true, fire_extinguisher_blanket := true
    gas_safety_certificate := true, epc := true, eicr := true }

/-- Stored filter values with the bedrooms minimum set to "3". -/
def filterValuesBeds3 : FilterValues :=
  { search := "", postcode := "", city := "", property_type := "", parking_type := ""
    bedrooms := "3", beds := "", bathrooms := "", max_occupancy := ""
    workspace_desk := false, high_speed_wifi := false, fully_equipped_kitchen := false
    living_dining_space := false, fire_extinguisher_blanket := false
    gas_safety_certificate := false, epc := false, eicr := false }

/-- Witness for C8 at a concrete collection: the kept four-bedroom property
satisfies the threshold and the excluded two-bedroom property misses it. -/
theorem filteredProperties_bedrooms_witness :
    3 ≤ propFourBeds.bedrooms ∧ propTwoBeds.bedrooms < 3 :=
  ⟨(filteredProperties_bedrooms_sound_complete filterValuesBeds3
      [propTwoBeds, propFourBeds] rfl).1 propFourBeds (by decide),
   (filteredProperties_bedrooms_sound_complete filterValuesBeds3
      [propTwoBeds, propFourBeds] rfl).2 propTwoBeds (by decide) (by decide)⟩

/-- C7: `getAllBookings` never lets a store failure escape: if both schema
queries fail the result is the empty list, and a failure of the newer
schema alone just falls back to the legacy query's rows. -/
theorem getAllBookings_failsafe (eRequests eBookings : String)
    (rows : List RawBooking) :
    getAllBookings (Except.error eRequests) (Except.error eBookings) = [] ∧
    getAllBookings (Except.error eRequests) (Except.ok rows)
      = getAllBookings (Except.ok rows) (Except.error eBookings) := by
  constructor <;> rfl

/-- The stored value of a filter key is "empty" (falsy): `""` for the
text/numeric inputs, `false` for the checkboxes. -/
def filterValueEmpty (k : FilterKey) (v : FilterValues) : Prop :=
  match k with
  | FilterKey.search => v.search = ""
  | FilterKey.postcode => v.postcode = ""
  | FilterKey.city => v.city = ""
  | FilterKey.property_type => v.property_type = ""
  | FilterKey.parking_type => v.parking_type = ""
  | FilterKey.bedrooms => v.bedrooms = ""
  | FilterKey.beds => v.beds = ""
  | FilterKey.bathrooms => v.bathrooms = ""
  | FilterKey.max_occupancy => v.max_occupancy = ""
  | FilterKey.workspace_desk => v.workspace_desk = false
  | FilterKey.high_speed_wifi => v.high_speed_wifi = false
  | FilterKey.fully_equipped_kitchen => v.fully_equipped_kitchen = false
  | FilterKey.living_dining_space => v.living_dining_space = false
  | FilterKey.fire_extinguisher_blanket => v.fire_extinguisher_blanket = false
  | FilterKey.gas_safety_certificate => v.gas_safety_certificate = false
  | FilterKey.epc => v.epc = false
  | FilterKey.eicr => v.eicr = false

set_option maxHeartbeats 4000000 in
/-- C10: a predicate whose stored value is empty imposes no constraint —
filtering with it in the active set gives the same result as filtering
with it removed from the active set. -/
theorem filteredProperties_empty_value_inactive (k : FilterKey)
    (selectedFilters : FilterKey → Bool) (filterValues : FilterValues)
    (properties : List PropertyRec) (h : filterValueEmpty k filterValues) :
    filteredProperties selectedFilters filterValues properties =
      filteredProperties
        (fun j => selectedFilters j && !(decide (j = k)))
        filterValues properties := by
  cases k <;>
    (simp only [filterValueEmpty] at h
     simp only [filteredProperties, h]
     simp)

/-- Witness for C10: activating the bedrooms predicate with an empty
stored minimum filters nothing out of a concrete two-property collection. -/
theorem filteredProperties_empty_value_inactive_witness :
    filteredProperties
        (fun k => match k with | FilterKey.bedrooms => true | _ => false)
        ({ filterValuesBeds3 with bedrooms := "" }) [propTwoBeds, propFourBeds] =
      filteredProperties
        (fun j => (match j with | FilterKey.bedrooms => true | _ => false)
          && !(decide (j = FilterKey.bedrooms)))
        ({ filterValuesBeds3 with bedrooms := "" }) [propTwoBeds, propFourBeds] :=
  filteredProperties_empty_value_inactive FilterKey.bedrooms
    (fun k => match k with | FilterKey.bedrooms => true | _ => false)
    ({ filterValuesBeds3 with bedrooms := "" }) [propTwoBeds, propFourBeds] rfl

/-- C1: `getAllBookings` expands records independently (splitting off the
head record preserves the output), and for a single record: with N ≥ 1
nested dates it emits one entry per date, each with composite id
`"<requestId>-<dateId>"` and exactly that one date; with no nested dates it
emits exactly one entry keeping the request's own id and an empty date
list. -/
theorem getAllBookings_expansion (r : RawBooking) (rs : List RawBooking)
    (qBookings : Except String (List RawBooking)) :
    getAllBookings (Except.ok (r :: rs)) qBookings
      = getAllBookings (Except.ok [r]) qBookings
        ++ getAllBookings (Except.ok rs) qBookings
    ∧ (r.booking_dates ≠ [] →
        (getAllBookings (Except.ok [r]) qBookings).map Booking.id
          = r.booking_dates.map (fun d => r.id ++ "-" ++ d.id)
        ∧ (getAllBookings (Except.ok [r]) qBookings).map Booking.booking_dates
          = r.booking_dates.map (fun d => [d])
        ∧ (getAllBookings (Except.ok [r]) qBookings).length
          = r.booking_dates.length)
    ∧ (r.booking_dates = [] →
        (getAllBookings (Except.ok [r]) qBookings).map Booking.id = [r.id]
        ∧ (getAllBookings (Except.ok [r]) qBookings).map Booking.booking_dates
          = [([] : List RawDate)]) := by
  refine ⟨?_, ?_, ?_⟩
  · show expandBookings (r :: rs) = expandBookings [r] ++ expandBookings rs
    simp [expandBookings]
  · intro hne
    have hlen : 0 < r.booking_dates.length := List.length_pos.mpr hne
    show (expandBookings [r]).map Booking.id = _
      ∧ (expandBookings [r]).map Booking.booking_dates = _
      ∧ (expandBookings [r]).length = _
    simp [expandBookings, hlen, List.map_map, Function.comp]
  · intro hnil
    show (expandBookings [r]).map Booking.id = _
      ∧ (expandBookings [r]).map Booking.booking_dates = _
    simp [expandBookings, hnil]

/-- The spec's scenario date `D1` (2024-06-01 → 2024-06-05, `pending`). -/
def dateD1 : RawDate :=
  { id := "D1", start_date := "2024-06-01", end_date := "2024-06-05"
    status := "pending", created_at := "", booked_properties := [] }

/-- The spec's scenario date `D2` (2024-07-01 → 2024-07-03, `confirmed`). -/
def dateD2 : RawDate :=
  { id := "D2", start_date := "2024-07-01", end_date := "2024-07-03"
    status := "confirmed", created_at := "", booked_properties := [] }

/-- The spec's scenario request `R1` carrying `D1` and `D2`. -/
def requestR1 : RawBooking :=
  { id := "R1", status := "pending", booking_dates := [dateD1, dateD2]
    assigned_property_id := "", contractor := none, user_id := "U1"
    contractor_id := "", full_name := "Alice", email := "alice@example.com" }

/-- A request without any nested dates. -/
def requestR2 : RawBooking :=
  { id := "R2", status := "reviewing", booking_dates := []
    assigned_property_id := "", contractor := none, user_id := ""
    contractor_id := "", full_name := "Bob", email := "bob@example.com" }

/-- Witness for C1 on the spec's scenario data: `R1` with two dates yields
the composite ids, `R2` with none keeps its own id. -/
theorem getAllBookings_expansion_witness :
    ((getAllBookings (Except.ok [requestR1]) (Except.ok [])).map Booking.id
      = requestR1.booking_dates.map (fun d => requestR1.id ++ "-" ++ d.id))
    ∧ ((getAllBookings (Except.ok [requestR2]) (Except.ok [])).map Booking.id
      = [requestR2.id]) :=
  ⟨((getAllBookings_expansion requestR1 [] (Except.ok [])).2.1 (by decide)).1,
   ((getAllBookings_expansion requestR2 [] (Except.ok [])).2.2 rfl).1⟩

/-- A booking date whose own status is empty. -/
def dateNoStatus : RawDate :=
  { id := "D0", start_date := "", end_date := "", status := ""
    created_at := "", booked_properties := [] }

/-- A request whose own status is also empty. -/
def requestNoStatus : RawBooking :=
  { id := "R0", status := "", booking_dates := [dateNoStatus]
    assigned_property_id := "", contractor := none, user_id := ""
    contractor_id := "", full_name := "", email := "" }

/-- C2 counterexample: when both the date's status and the parent request's
status are empty, the displayed status is the literal `"pending"`, not the
parent request's (empty) status. -/
theorem getAllBookings_status_counterexample :
    (getAllBookings (Except.ok [requestNoStatus]) (Except.ok [])).map Booking.status
      = ["pending"]
    ∧ requestNoStatus.status = "" ∧ ("pending" : String) ≠ "" := by
  decide

/-- C2 amended: per expanded entry, `confirmed` maps to `active`, any other
non-empty date status passes through, and an empty date status falls back
to the parent request's status — defaulting to `"pending"` when that too is
empty (`jsOr r.status "pending"`). -/
theorem getAllBookings_status_mapping (r : RawBooking)
    (qBookings : Except String (List RawBooking)) :
    (getAllBookings (Except.ok [r]) qBookings).map Booking.status
      = if r.booking_dates = [] then [jsOr r.status "pending"]
        else r.booking_dates.map fun d =>
          if d.status = "confirmed" then "active"
          else if d.status ≠ "" then d.status
          else jsOr r.status "pending" := by
  by_cases hnil : r.booking_dates = []
  · simp [getAllBookings, expandBookings, hnil]
  · have hlen : 0 < r.booking_dates.length := List.length_pos.mpr hnil
    simp [getAllBookings, expandBookings, hnil, hlen, List.map_map, Function.comp]

/-- A selected property with a non-empty postcode and no landlord id. -/
def propertySeaView : SelectedProperty :=
  { id := "P1", property_name := "Sea View", title := "", property_type := "flat"
    full_address := "1 Shore Road", address := "", landlord_id := ""
    house_address := "", locality := "", city := "", county := ""
    postcode := "AB1 2CD", country := "", owner := none }

/-- C3 counterexample: in new-booking mode the postcode field starts empty
even though the selected property's own postcode is non-empty — it is not
pre-filled from the property. -/
theorem fetchFormDataNewBooking_postcode_counterexample :
    (fetchFormDataNewBooking propertySeaView (fun _ => none)).postcode = ""
    ∧ propertySeaView.postcode = "AB1 2CD"
    ∧ (fetchFormDataNewBooking propertySeaView (fun _ => none)).postcode
        ≠ propertySeaView.postcode := by
  decide

/-- C3 amended: for a brand-new booking every contractor, date, booking-date
id, team-size — and postcode — field starts empty, and the only store the
operation consults is the landlord table at the property's `landlord_id`
(no booking-record lookups). -/
theorem fetchFormDataNewBooking_spec (sp : SelectedProperty)
    (landlordStore : String → Option Landlord) :
    (fetchFormDataNewBooking sp landlordStore).booking_date_id = ""
    ∧ (fetchFormDataNewBooking sp landlordStore).start_date = ""
    ∧ (fetchFormDataNewBooking sp landlordStore).end_date = ""
    ∧ (fetchFormDataNewBooking sp landlordStore).postcode = ""
    ∧ (fetchFormDataNewBooking sp landlordStore).contractor_name = ""
    ∧ (fetchFormDataNewBooking sp landlordStore).contractor_email = ""
    ∧ (fetchFormDataNewBooking sp landlordStore).contractor_phone = ""
    ∧ (fetchFormDataNewBooking sp landlordStore).team_size = 0
    ∧ ∀ landlordStore' : String → Option Landlord,
        (sp.landlord_id ≠ "" → landlordStore sp.landlord_id = landlordStore' sp.landlord_id) →
        fetchFormDataNewBooking sp landlordStore
          = fetchFormDataNewBooking sp landlordStore' := by
  refine ⟨rfl, rfl, rfl, rfl, rfl, rfl, rfl, rfl, ?_⟩
  intro store' hagree
  by_cases hid : sp.landlord_id = ""
  · simp [fetchFormDataNewBooking, lookupLandlord, hid]
  · simp [fetchFormDataNewBooking, lookupLandlord, hid, hagree hid]

/-- The selected property with a landlord id attached. -/
def propertyWithLandlord : SelectedProperty :=
  { propertySeaView with landlord_id := "L1" }

/-- A landlord row for the witnesses. -/
def landlordL1 : Landlord :=
  { full_name := "Lena Land", contact_number := "0113 000", email := "lena@example.com" }

/-- A landlord store answering every id with `landlordL1`. -/
def landlordStoreA : String → Option Landlord := fun _ => some landlordL1

/-- A landlord store answering only `"L1"`. -/
def landlordStoreB : String → Option Landlord :=
  fun i => if i = "L1" then some landlordL1 else none

/-- Witness for C3 on a concrete property: the postcode starts empty and
two stores agreeing on the landlord row produce identical forms. -/
theorem fetchFormDataNewBooking_spec_witness :
    (fetchFormDataNewBooking propertyWithLandlord landlordStoreA).postcode = ""
    ∧ fetchFormDataNewBooking propertyWithLandlord landlordStoreA
        = fetchFormDataNewBooking propertyWithLandlord landlordStoreB :=
  ⟨(fetchFormDataNewBooking_spec propertyWithLandlord landlordStoreA).2.2.2.1,
   (fetchFormDataNewBooking_spec propertyWithLandlord landlordStoreA).2.2.2.2.2.2.2.2
     landlordStoreB (fun _ => by decide)⟩

/-- A fully-populated submission form. -/
def formBase : FormData :=
  { booking_date_id := "D1", start_date := "2024-06-01", end_date := "2024-06-05"
    postcode := "AB1", contractor_name := "Alice", contractor_email := "a@x"
    contractor_phone := "1", team_size := 2, property_name := "Sea View"
    property_type := "flat", property_address := "1 Shore Road"
    landlord_name := "Lena", landlord_contact := "0113" }

/-- The form with only the start date missing. -/
def formNoStart : FormData := { formBase with start_date := "" }

/-- The form with only the end date missing. -/
def formNoEnd : FormData := { formBase with end_date := "" }

/-- C4 counterexample: a missing start date and a missing end date are both
rejected with the *same* message, so the four missing-field conditions do
not produce four distinct messages. -/
theorem handleSubmitValidate_counterexample :
    handleSubmitValidate formNoStart (some propertySeaView)
      = Except.error "Start date and end date are required"
    ∧ handleSubmitValidate formNoEnd (some propertySeaView)
      = Except.error "Start date and end date are required"
    ∧ formNoStart.start_date = "" ∧ formNoStart.end_date ≠ ""
    ∧ formNoEnd.start_date ≠ "" ∧ formNoEnd.end_date = "" :=
  ⟨rfl, rfl, rfl, by decide, by decide, rfl⟩

/-- C4 amended: each missing-field condition is rejected locally (no
payload is produced) in priority order — missing booking-date id, then
missing/idless property, then missing start or end date, the last two
sharing one message — and a fully-populated form yields a payload. -/
theorem handleSubmitValidate_preconditions (fd : FormData)
    (sp : Option SelectedProperty) :
    (fd.booking_date_id = "" →
      handleSubmitValidate fd sp = Except.error "Booking ID is required")
    ∧ (fd.booking_date_id ≠ "" → sp = none →
      handleSubmitValidate fd sp = Except.error "Property selection is required")
    ∧ (∀ p, fd.booking_date_id ≠ "" → sp = some p → p.id = "" →
      handleSubmitValidate fd sp = Except.error "Property selection is required")
    ∧ (∀ p, fd.booking_date_id ≠ "" → sp = some p → p.id ≠ "" →
      (fd.start_date = "" ∨ fd.end_date = "") →
      handleSubmitValidate fd sp = Except.error "Start date and end date are required")
    ∧ (∀ p, fd.booking_date_id ≠ "" → sp = some p → p.id ≠ "" →
      fd.start_date ≠ "" → fd.end_date ≠ "" →
      ∃ payload, handleSubmitValidate fd sp = Except.ok payload) := by
  refine ⟨?_, ?_, ?_, ?_, ?_⟩
  · intro h
    simp [handleSubmitValidate, h]
  · intro h hnone
    subst hnone
    simp [handleSubmitValidate, h]
  · intro p h hsome hpid
    subst hsome
    simp [handleSubmitValidate, h, hpid]
  · intro p h hsome hpid hor
    subst hsome
    rcases hor with h1 | h1 <;> simp [handleSubmitValidate, h, hpid, h1]
  · intro p h hsome hpid hstart hend
    subst hsome
    simp only [handleSubmitValidate]
    rw [if_neg h, if_neg hpid, if_neg (by simp [hstart, hend])]
    exact ⟨_, rfl⟩

/-- Witness for C4 at concrete forms: each rejection fires with its
message, and the complete form passes validation. -/
theorem handleSubmitValidate_preconditions_witness :
    handleSubmitValidate ({ formBase with booking_date_id := "" }) (some propertySeaView)
      = Except.error "Booking ID is required"
    ∧ handleSubmitValidate formBase none
      = Except.error "Property selection is required"
    ∧ handleSubmitValidate formNoStart (some propertySeaView)
      = Except.error "Start date and end date are required"
    ∧ ∃ payload, handleSubmitValidate formBase (some propertySeaView)
      = Except.ok payload :=
  ⟨(handleSubmitValidate_preconditions _ _).1 rfl,
   (handleSubmitValidate_preconditions formBase none).2.1 (by decide) rfl,
   (handleSubmitValidate_preconditions formNoStart (some propertySeaView)).2.2.2.1
     propertySeaView (by decide) rfl (by decide) (Or.inl rfl),
   (handleSubmitValidate_preconditions formBase (some propertySeaView)).2.2.2.2
     propertySeaView (by decide) rfl (by decide) (by decide) (by decide)⟩

/-- The live form after the user edited the property and landlord fields. -/
def formUserEdited : FormData :=
  { formBase with
    booking_date_id := ""
    property_name := "My Custom Name"
    landlord_name := "My Landlord" }

/-- The selected property, whose real name differs from the user's edit. -/
def propertyRealName : SelectedProperty :=
  { propertySeaView with property_name := "Real Name" }

/-- The `booking_dates` row behind id `"D1"`. -/
def dateRowD1 : DateRec :=
  { booking_request_id := "R1", start_date := "2024-06-01", end_date := "2024-06-05" }

/-- The `booking_requests` row behind id `"R1"`. -/
def requestRowR1 : ReqRec :=
  { team_size := 2, full_name := "Bob", email := "b@x", phone := "1"
    project_postcode := "AB1" }

/-- A date store holding exactly the `"D1"` row. -/
def dateStoreD1 : String → Option DateRec :=
  fun i => if i = "D1" then some dateRowD1 else none

/-- A request store holding exactly the `"R1"` row. -/
def requestStoreR1 : String → Option ReqRec :=
  fun i => if i = "R1" then some requestRowR1 else none

/-- C5 counterexample: after a successful lookup the user's edited property
and landlord fields are *not* preserved — they are recomputed from the
selected property ("Real Name" / "Unknown"), discarding the edits. -/
theorem fetchBookingDataById_counterexample :
    (fetchBookingDataById "D1" formUserEdited propertyRealName dateStoreD1
        requestStoreR1 (fun _ => none)).toOption.map
          (fun fd => (fd.property_name, fd.landlord_name))
      = some ("Real Name", "Unknown")
    ∧ formUserEdited.property_name = "My Custom Name"
    ∧ formUserEdited.landlord_name = "My Landlord" := by
  decide

/-- C5 amended: a successful lookup overwrites the contractor, date and
team-size fields with the fetched values, recomputes the property and
landlord fields from the selected property and landlord store (discarding
user edits to them), and keeps the previous form only through the postcode,
which survives exactly when the fetched request's postcode is empty; every
other field is independent of the previous form. -/
theorem fetchBookingDataById_success (bid : String) (prev prev' : FormData)
    (sp : SelectedProperty) (dateStore : String → Option DateRec)
    (requestStore : String → Option ReqRec)
    (landlordStore : String → Option Landlord) (dd : DateRec) (rr : ReqRec)
    (h1 : dateStore bid = some dd)
    (h2 : requestStore dd.booking_request_id = some rr) :
    ∃ fd fd',
      fetchBookingDataById bid prev sp dateStore requestStore landlordStore
        = Except.ok fd
      ∧ fetchBookingDataById bid prev' sp dateStore requestStore landlordStore
        = Except.ok fd'
      ∧ fd.booking_date_id = bid
      ∧ fd.start_date = dd.start_date
      ∧ fd.end_date = dd.end_date
      ∧ fd.contractor_name = jsOr rr.full_name ""
      ∧ fd.contractor_email = jsOr rr.email ""
      ∧ fd.contractor_phone = jsOr rr.phone ""
      ∧ fd.team_size = rr.team_size
      ∧ (rr.project_postcode ≠ "" → fd.postcode = rr.project_postcode)
      ∧ (rr.project_postcode = "" → fd.postcode = prev.postcode)
      ∧ fd.property_name = jsOr sp.property_name sp.title
      ∧ fd.property_type = sp.property_type
      ∧ fd.property_address = propertyAddressOf sp
      ∧ fd.landlord_name = landlordNameOf (lookupLandlord sp landlordStore) sp
      ∧ fd.landlord_contact = landlordContactOf (lookupLandlord sp landlordStore) sp
      ∧ fd' = { fd with postcode := jsOr rr.project_postcode prev'.postcode } := by
  simp only [fetchBookingDataById, h1, h2]
  refine ⟨_, _, rfl, rfl, rfl, rfl, rfl, rfl, rfl, rfl, rfl, ?_, ?_, rfl, rfl, rfl,
    rfl, rfl, rfl⟩
  · intro hne
    simp [jsOr, hne]
  · intro heq
    simp [jsOr, heq]

/-- Witness for C5 at the concrete stores: the lookup for `"D1"` succeeds
and fills the booking-date id. -/
theorem fetchBookingDataById_success_witness :
    (fetchBookingDataById "D1" formBase propertyRealName dateStoreD1
        requestStoreR1 (fun _ => none)).toOption.map FormData.booking_date_id
      = some "D1" := by
  obtain ⟨fd, fd', hfd, hfd', hbid, hrest⟩ :=
    fetchBookingDataById_success "D1" formBase formUserEdited propertyRealName
      dateStoreD1 requestStoreR1 (fun _ => none) dateRowD1 requestRowR1 rfl rfl
  rw [hfd]
  simp [Except.toOption, hbid]

/-- A candidate carrying one nested date whose id is empty, plus a
composite id. -/
def candNestedEmptyId : Candidate :=
  { id := "R1-D7", booking_request_id := ""
    booking_dates := [{ id := "", start_date := "", end_date := "", status := "" }] }

/-- C6 counterexample: the candidate carries a nested BookingDate, yet the
resolved id is `"D7"`, taken from splitting the composite id — not the
nested date's (empty) id. -/
theorem resolveBookingDateId_counterexample :
    resolveBookingDateId candNestedEmptyId (fun _ => none) = "D7"
    ∧ candNestedEmptyId.booking_dates.map CandDate.id = [""]
    ∧ ("D7" : String) ≠ "" := by
  decide

/-- C6 amended: strict priority order, where a step succeeds only when it
yields a non-empty id — (1) the first nested date's id when non-empty,
(2) the date-store row for the parent-request id when present and
non-empty, (3) the second segment of the composite id when it contains the
separator, else the empty id. -/
theorem resolveBookingDateId_priority (c : Candidate)
    (dateStore : String → Option String) :
    (∀ d rest, c.booking_dates = d :: rest → d.id ≠ "" →
      resolveBookingDateId c dateStore = d.id)
    ∧ ((c.booking_dates.map CandDate.id).headD "" = "" →
      c.booking_request_id ≠ "" → ∀ v, dateStore c.booking_request_id = some v →
      v ≠ "" → resolveBookingDateId c dateStore = v)
    ∧ ((c.booking_dates.map CandDate.id).headD "" = "" →
      (c.booking_request_id = "" ∨ dateStore c.booking_request_id = none
        ∨ dateStore c.booking_request_id = some "") →
      jsIncludesChar c.id '-' = true →
      resolveBookingDateId c dateStore = (jsSplitChar c.id '-').getD 1 "")
    ∧ ((c.booking_dates.map CandDate.id).headD "" = "" →
      (c.booking_request_id = "" ∨ dateStore c.booking_request_id = none
        ∨ dateStore c.booking_request_id = some "") →
      jsIncludesChar c.id '-' = false →
      resolveBookingDateId c dateStore = "") := by
  have hhead : (match c.booking_dates with
      | d :: _ => d.id
      | [] => "") = (c.booking_dates.map CandDate.id).headD "" := by
    cases c.booking_dates <;> simp
  refine ⟨?_, ?_, ?_, ?_⟩
  · intro d rest hdates hid
    simp [resolveBookingDateId, hdates, hid]
  · intro h1 h2 v hv hvne
    simp only [resolveBookingDateId, hhead, h1]
    simp [h2, hv, hvne]
  · intro h1 h2 h3
    simp only [resolveBookingDateId, hhead, h1]
    rcases h2 with h2 | h2 | h2 <;> simp [h2, h3]
  · intro h1 h2 h3
    simp only [resolveBookingDateId, hhead, h1]
    rcases h2 with h2 | h2 | h2 <;> simp [h2, h3]

/-- A candidate whose first nested date has the non-empty id `"D9"`. -/
def candNestedD9 : Candidate :=
  { id := "X-IGNORED", booking_request_id := "R1"
    booking_dates := [{ id := "D9", start_date := "", end_date := "", status := "" }] }

/-- A candidate with no nested dates but a parent-request id. -/
def candNoDates : Candidate :=
  { id := "Y", booking_request_id := "R1", booking_dates := [] }

/-- A candidate with nothing to resolve from. -/
def candPlain : Candidate :=
  { id := "Z", booking_request_id := "", booking_dates := [] }

/-- A date-id store resolving parent request `"R1"` to date `"D5"`. -/
def dateIdStoreR1 : String → Option String :=
  fun i => if i = "R1" then some "D5" else none

/-- Witness for C6: each priority step fires on a concrete candidate. -/
theorem resolveBookingDateId_priority_witness :
    resolveBookingDateId candNestedD9 dateIdStoreR1 = "D9"
    ∧ resolveBookingDateId candNoDates dateIdStoreR1 = "D5"
    ∧ resolveBookingDateId candNestedEmptyId (fun _ => none)
        = (jsSplitChar candNestedEmptyId.id '-').getD 1 ""
    ∧ resolveBookingDateId candPlain (fun _ => none) = "" :=
  ⟨(resolveBookingDateId_priority candNestedD9 dateIdStoreR1).1 _ _ rfl (by decide),
   (resolveBookingDateId_priority candNoDates dateIdStoreR1).2.1 rfl (by decide)
     "D5" (by decide) (by decide),
   (resolveBookingDateId_priority candNestedEmptyId (fun _ => none)).2.2.1
     rfl (Or.inr (Or.inl rfl)) (by decide),
   (resolveBookingDateId_priority candPlain (fun _ => none)).2.2.2
     rfl (Or.inl rfl) (by decide)⟩
